import Mathlib

/-!
Verification of the Grayco/KB Signs Suite CRM core: the project status state
machine, the business-calendar utilities, the alert/nudge engine and the
commission/ledger aggregator, shallowly embedded from the repository sources
(`src/services/database_manager.py`, `src/views/ledger.py`,
`src/views/project_detail.py`, `src/api/lead_receiver.py`).
-/

namespace Grayco

/-! ## Calendar model

Python `datetime.date` is a proleptic-Gregorian civil date; `date.toordinal()`
maps 0001-01-01 to 1, and `date.weekday()` is 0 for Monday.  We embed dates as
(year, month, day) triples with the standard ordinal map, so that weekday and
date comparison coincide with Python's. -/

/-- Python's `str.lower()` restricted to the ASCII status strings this
repository uses (embedded as a per-character map). -/
def pyLower (s : String) : String := String.mk (s.data.map Char.toLower)

/-- Python's `.replace(" ", "_")`: for a one-character pattern and a
one-character replacement the substitution is a per-character map. -/
def pyReplaceSpace (s : String) : String :=
  String.mk (s.data.map (fun c => if c = ' ' then '_' else c))

structure CDate where
  year : Nat
  month : Nat
  day : Nat
deriving DecidableEq, Repr

def isLeapYear (y : Nat) : Bool :=
  (y % 4 == 0 && y % 100 != 0) || y % 400 == 0

def daysInMonth (y m : Nat) : Nat :=
  if m = 2 then (if isLeapYear y then 29 else 28)
  else if m = 4 ∨ m = 6 ∨ m = 9 ∨ m = 11 then 30
  else 31

/-- Days in months `1..m-1` of year `y`. -/
def daysBeforeMonth (y m : Nat) : Nat :=
  (List.range (m - 1)).foldl (fun acc i => acc + daysInMonth y (i + 1)) 0

/-- `date.toordinal()`: 0001-01-01 ↦ 1. -/
def CDate.toOrdinal (d : CDate) : Nat :=
  365 * (d.year - 1) + (d.year - 1) / 4 - (d.year - 1) / 100 + (d.year - 1) / 400
    + daysBeforeMonth d.year d.month + d.day

/-- `date.weekday()`: Monday = 0, ..., Sunday = 6. -/
def CDate.weekday (d : CDate) : Nat :=
  (d.toOrdinal + 6) % 7

/-- A well-formed civil date. -/
def CDate.Valid (d : CDate) : Prop :=
  1 ≤ d.year ∧ 1 ≤ d.month ∧ d.month ≤ 12 ∧ 1 ≤ d.day ∧ d.day ≤ daysInMonth d.year d.month

instance (d : CDate) : Decidable d.Valid := by
  unfold CDate.Valid; infer_instance

/-- Python `date` comparison (chronological order via ordinals). -/
def CDate.lt (a b : CDate) : Prop := a.toOrdinal < b.toOrdinal

instance (a b : CDate) : Decidable (a.lt b) := by
  unfold CDate.lt; infer_instance

/-! ## `calculate_business_days` (src/services/database_manager.py:1951)

```python
def calculate_business_days(from_date, to_date) -> int:
    if from_date is None or to_date is None:
        return 0
    ...
    business_days = 0
    current = from_date
    while current < to_date:
        if current.weekday() < 5:  # Mon=0, Fri=4
            business_days += 1
        current += timedelta(days=1)
    return business_days
```
The loop walks ordinals `cur = from, from+1, ..., to-1`, counting those whose
weekday is `< 5`.  `countWeekdaysFrom cur n` is the loop with `n = to - from`
iterations remaining. -/

def countWeekdaysFrom : Nat → Nat → Nat
  | _, 0 => 0
  | cur, n + 1 => (if (cur + 6) % 7 < 5 then 1 else 0) + countWeekdaysFrom (cur + 1) n

def calculate_business_days : Option CDate → Option CDate → Nat
  | none, _ => 0
  | _, none => 0
  | some a, some b => countWeekdaysFrom a.toOrdinal (b.toOrdinal - a.toOrdinal)

/-- The counting rule the claim's prose describes: weekdays strictly between
the two dates, excluding the start date and not including the end date. -/
def business_days_strictly_between : Option CDate → Option CDate → Nat
  | none, _ => 0
  | _, none => 0
  | some a, some b => countWeekdaysFrom (a.toOrdinal + 1) (b.toOrdinal - (a.toOrdinal + 1))

/-- Is ordinal `o` a weekday (Mon-Fri)? -/
def isWeekdayOrdinal (o : Nat) : Bool := (o + 6) % 7 < 5

theorem countWeekdaysFrom_succ (cur n : Nat) :
    countWeekdaysFrom cur (n + 1) =
      (if (cur + 6) % 7 < 5 then 1 else 0) + countWeekdaysFrom (cur + 1) n := rfl

/-- The loop counts exactly the weekday ordinals in the half-open range
`[cur, cur + n)`. -/
theorem countWeekdaysFrom_eq_filter_length (n cur : Nat) :
    countWeekdaysFrom cur n = ((List.range' cur n).filter isWeekdayOrdinal).length := by
  induction n generalizing cur with
  | zero => rfl
  | succ m ih =>
    rw [countWeekdaysFrom_succ, List.range'_succ, List.filter_cons, ih (cur + 1)]
    by_cases h : (cur + 6) % 7 < 5
    · simp [isWeekdayOrdinal, h, Nat.add_comm]
    · simp [isWeekdayOrdinal, h]

theorem countWeekdaysFrom_four (o : Nat) (h : (o + 6) % 7 = 0) :
    countWeekdaysFrom o 4 = 4 := by
  have e : countWeekdaysFrom o 4 =
      (if (o + 6) % 7 < 5 then 1 else 0) +
        ((if (o + 1 + 6) % 7 < 5 then 1 else 0) +
          ((if (o + 2 + 6) % 7 < 5 then 1 else 0) +
            ((if (o + 3 + 6) % 7 < 5 then 1 else 0) + 0))) := rfl
  rw [e]; split_ifs <;> omega

theorem countWeekdaysFrom_friday_three (o : Nat) (h : (o + 6) % 7 = 4) :
    countWeekdaysFrom o 3 = 1 := by
  have e : countWeekdaysFrom o 3 =
      (if (o + 6) % 7 < 5 then 1 else 0) +
        ((if (o + 1 + 6) % 7 < 5 then 1 else 0) +
          ((if (o + 2 + 6) % 7 < 5 then 1 else 0) + 0)) := rfl
  rw [e]; split_ifs <;> omega

/-- **C2** (counterexample).  The claim says `calculate_business_days` counts
weekdays *strictly between* the two dates, excluding the start date.  The code
iterates `current = from_date` while `current < to_date`, so it *includes* the
start date: on (Monday 2024-01-01, Tuesday 2024-01-02) the code returns 1
(it counts the Monday), while the claimed exclusive-of-start rule returns 0. -/
theorem calculate_business_days_claim_refuted :
    ¬ (∀ a b : Option CDate,
        calculate_business_days a b = business_days_strictly_between a b) := by
  intro h
  exact absurd (h (some ⟨2024, 1, 1⟩) (some ⟨2024, 1, 2⟩)) (by decide)

/-- **C2** (amended).  `calculate_business_days` counts the weekdays (Mon-Fri)
in the half-open range `[from_date, to_date)` — *including* the start date and
excluding the end date; it returns 0 when either input is absent; it returns 0
on `(d, d)`, 4 on (a Monday, the following Friday), and 1 on (a Friday, the
following Monday). -/
theorem calculate_business_days_correct :
    (∀ a b : CDate, calculate_business_days (some a) (some b) =
        ((List.range' a.toOrdinal (b.toOrdinal - a.toOrdinal)).filter isWeekdayOrdinal).length)
    ∧ (∀ b, calculate_business_days none b = 0)
    ∧ (∀ a, calculate_business_days a none = 0)
    ∧ (∀ d : CDate, calculate_business_days (some d) (some d) = 0)
    ∧ (∀ a b : CDate, a.weekday = 0 → b.toOrdinal = a.toOrdinal + 4 →
        calculate_business_days (some a) (some b) = 4)
    ∧ (∀ a b : CDate, a.weekday = 4 → b.toOrdinal = a.toOrdinal + 3 →
        calculate_business_days (some a) (some b) = 1) := by
  refine ⟨fun a b => countWeekdaysFrom_eq_filter_length _ _, fun b => by cases b <;> rfl,
    fun a => by cases a <;> rfl, fun d => by simp [calculate_business_days, countWeekdaysFrom],
    fun a b h0 h4 => ?_, fun a b h0 h3 => ?_⟩
  · show countWeekdaysFrom a.toOrdinal (b.toOrdinal - a.toOrdinal) = 4
    rw [h4, Nat.add_sub_cancel_left]
    exact countWeekdaysFrom_four _ h0
  · show countWeekdaysFrom a.toOrdinal (b.toOrdinal - a.toOrdinal) = 1
    rw [h3, Nat.add_sub_cancel_left]
    exact countWeekdaysFrom_friday_three _ h0

/-- Witness for C2's amended theorem: 2024-01-01 was a Monday and 2024-01-05
the following Friday; 2024-01-05 was a Friday and 2024-01-08 the following
Monday. -/
theorem calculate_business_days_correct_witness :
    calculate_business_days (some ⟨2024, 1, 1⟩) (some ⟨2024, 1, 5⟩) = 4 ∧
    calculate_business_days (some ⟨2024, 1, 5⟩) (some ⟨2024, 1, 8⟩) = 1 :=
  ⟨calculate_business_days_correct.2.2.2.2.1 ⟨2024, 1, 1⟩ ⟨2024, 1, 5⟩
      (by decide) (by decide),
   calculate_business_days_correct.2.2.2.2.2 ⟨2024, 1, 5⟩ ⟨2024, 1, 8⟩
      (by decide) (by decide)⟩

/-! ## `close_project_with_final_payment` status rule
(src/services/database_manager.py:1564)

```python
install_date = logistics[0] if logistics else None
today = today_mountain()
if install_date and install_date > today:
    new_status = 'Confirmed'
else:
    new_status = 'completed'
```
The repository compares status values case- and separator-insensitively
(spec §4.2; e.g. `LOWER(status)` in SQL and `.lower()` in the views), so the
stored `'completed'` is the `Completed` state. -/

def close_project_new_status (install_date : Option CDate) (today : CDate) : String :=
  match install_date with
  | some d => if today.lt d then "Confirmed" else "completed"
  | none => "completed"

/-- **C3**: closing a project out with a final payment sets status `Confirmed`
when the recorded target installation date exists and is strictly after today
(Mountain Time), and otherwise sets the `Completed` state (stored as the
lowercase string `'completed'`, equal to `Completed` under the repository's
case-insensitive status comparison).  In particular an installation date of
tomorrow yields `Confirmed`. -/
theorem close_project_new_status_correct :
    (∀ (install : Option CDate) (today d : CDate), install = some d → today.lt d →
        close_project_new_status install today = "Confirmed")
    ∧ (∀ (install : Option CDate) (today : CDate),
        (∀ d, install = some d → ¬ today.lt d) →
        pyLower (close_project_new_status install today) = pyLower "Completed")
    ∧ (∀ (today tomorrow : CDate), tomorrow.toOrdinal = today.toOrdinal + 1 →
        close_project_new_status (some tomorrow) today = "Confirmed") := by
  refine ⟨fun install today d hd hlt => ?_, fun install today h => ?_,
    fun today tomorrow h => ?_⟩
  · subst hd
    simp [close_project_new_status, if_pos hlt]
  · cases install with
    | none =>
      show pyLower "completed" = pyLower "Completed"
      decide
    | some d =>
      have : ¬ today.lt d := h d rfl
      simp only [close_project_new_status, if_neg this]
      decide
  · have : today.lt tomorrow := by
      unfold CDate.lt; omega
    simp [close_project_new_status, if_pos this]

/-- Witness for C3: installation 2025-10-13, closed out on 2025-10-12 →
`Confirmed`; no installation date on record → the `Completed` state. -/
theorem close_project_new_status_witness :
    close_project_new_status (some ⟨2025, 10, 13⟩) ⟨2025, 10, 12⟩ = "Confirmed" ∧
    pyLower (close_project_new_status none ⟨2025, 10, 12⟩) = pyLower "Completed" :=
  ⟨close_project_new_status_correct.2.2 ⟨2025, 10, 12⟩ ⟨2025, 10, 13⟩ (by decide),
   close_project_new_status_correct.2.1 none ⟨2025, 10, 12⟩ (fun d h => by cases h)⟩

/-! ## `get_paid_commissions_for_ledger` (src/services/database_manager.py:948)

The SQL query builds two CTEs over `projects INNER JOIN commissions`
(scoped to the tenant's rows with `is_active_v3 = TRUE`; that scoping defines
the input row list here) and returns `deposit_payments UNION ALL
final_payments`.  The trailing `ORDER BY payment_date DESC` only reorders the
result and is not modelled. -/

structure PaymentEvent where
  id : String
  client_name : String
  project_value : ℚ
  payment_amount : ℚ
  commission_rate : ℚ
  payment_date : Option CDate
  commission_notes : Option String
  payment_type : String
deriving DecidableEq, Repr

/-- One row of `projects INNER JOIN commissions ON p.id = c.project_id`. -/
structure CommissionJoinRow where
  id : String
  client_name : String
  status : String
  total_value : Option ℚ
  estimated_value : Option ℚ
  deposit_amount : Option ℚ
  total_amount_received : Option ℚ
  deposit_received_date : Option CDate
  final_payment_date : Option CDate
  commission_rate : Option ℚ
  commission_notes : Option String
deriving DecidableEq, Repr

/-- SQL `COALESCE(x, dflt)`. -/
def coalesceQ (x : Option ℚ) (dflt : ℚ) : ℚ := x.getD dflt

/-- SQL `COALESCE(c.total_value, p.estimated_value, 0)`. -/
def projectValueOf (r : CommissionJoinRow) : ℚ :=
  match r.total_value with
  | some v => v
  | none => match r.estimated_value with
    | some v => v
    | none => 0

/-- The `deposit_payments` CTE: one `'deposit'` event per row whose
`deposit_received_date IS NOT NULL`. -/
def depositEventOf (r : CommissionJoinRow) : Option PaymentEvent :=
  if r.deposit_received_date.isSome then
    some { id := r.id, client_name := r.client_name,
           project_value := projectValueOf r,
           payment_amount := coalesceQ r.deposit_amount 0,
           commission_rate := coalesceQ r.commission_rate 10,
           payment_date := r.deposit_received_date,
           commission_notes := r.commission_notes,
           payment_type := "deposit" }
  else none

/-- The `final_payments` CTE: one `'final'` event per row whose
`final_payment_date IS NOT NULL AND COALESCE(total_amount_received, 0) >=
COALESCE(deposit_amount, 0) AND COALESCE(total_amount_received, 0) > 0`,
with `GREATEST(0, total_amount_received - deposit_amount)` as the amount. -/
def finalEventOf (r : CommissionJoinRow) : Option PaymentEvent :=
  if r.final_payment_date.isSome
      ∧ coalesceQ r.deposit_amount 0 ≤ coalesceQ r.total_amount_received 0
      ∧ 0 < coalesceQ r.total_amount_received 0 then
    some { id := r.id, client_name := r.client_name,
           project_value := projectValueOf r,
           payment_amount :=
             max 0 (coalesceQ r.total_amount_received 0 - coalesceQ r.deposit_amount 0),
           commission_rate := coalesceQ r.commission_rate 10,
           payment_date := r.final_payment_date,
           commission_notes := r.commission_notes,
           payment_type := "final" }
  else none

def get_paid_commissions_for_ledger (rows : List CommissionJoinRow) : List PaymentEvent :=
  rows.filterMap depositEventOf ++ rows.filterMap finalEventOf

/-- **C4**: a row yields a `'deposit'` ledger event exactly when
`deposit_received_date` is set, and a `'final'` ledger event exactly when
`final_payment_date` is set and `total_amount_received ≥ deposit_amount` and
`total_amount_received > 0` (NULL amounts coalesced to 0); a row with
`final_payment_date` set but `total_amount_received = 0` never yields a
`'final'` event; and the ledger holds exactly the events so synthesized from
its input rows. -/
theorem get_paid_commissions_for_ledger_correct :
    (∀ r : CommissionJoinRow,
        (∃ e, depositEventOf r = some e ∧ e.payment_type = "deposit") ↔
          r.deposit_received_date ≠ none)
    ∧ (∀ r : CommissionJoinRow,
        (∃ e, finalEventOf r = some e ∧ e.payment_type = "final") ↔
          (r.final_payment_date ≠ none
            ∧ coalesceQ r.deposit_amount 0 ≤ coalesceQ r.total_amount_received 0
            ∧ 0 < coalesceQ r.total_amount_received 0))
    ∧ (∀ r : CommissionJoinRow, r.final_payment_date ≠ none →
        r.total_amount_received = some 0 → finalEventOf r = none)
    ∧ (∀ (rows : List CommissionJoinRow) (e : PaymentEvent),
        e ∈ get_paid_commissions_for_ledger rows ↔
          ∃ r ∈ rows, depositEventOf r = some e ∨ finalEventOf r = some e) := by
  refine ⟨fun r => ?_, fun r => ?_, fun r hfin h0 => ?_, fun rows e => ?_⟩
  · unfold depositEventOf
    by_cases h : r.deposit_received_date.isSome
    · rw [if_pos h]
      simp [Option.isSome_iff_ne_none] at h
      exact ⟨fun _ => h, fun _ => ⟨_, rfl, rfl⟩⟩
    · rw [if_neg h]
      simp [Option.isSome_iff_ne_none] at h
      simp [h]
  · unfold finalEventOf
    by_cases h : r.final_payment_date.isSome
        ∧ coalesceQ r.deposit_amount 0 ≤ coalesceQ r.total_amount_received 0
        ∧ 0 < coalesceQ r.total_amount_received 0
    · rw [if_pos h]
      rw [← Option.isSome_iff_ne_none]
      exact ⟨fun _ => h, fun _ => ⟨_, rfl, rfl⟩⟩
    · rw [if_neg h]
      rw [← Option.isSome_iff_ne_none]
      simp only [iff_false_intro h]
      simp
  · unfold finalEventOf
    rw [if_neg]
    intro ⟨_, _, hpos⟩
    rw [h0] at hpos
    exact absurd hpos (by norm_num [coalesceQ])
  · unfold get_paid_commissions_for_ledger
    rw [List.mem_append, List.mem_filterMap, List.mem_filterMap]
    constructor
    · rintro (⟨r, hr, he⟩ | ⟨r, hr, he⟩)
      · exact ⟨r, hr, Or.inl he⟩
      · exact ⟨r, hr, Or.inr he⟩
    · rintro ⟨r, hr, he | he⟩
      · exact Or.inl ⟨r, hr, he⟩
      · exact Or.inr ⟨r, hr, he⟩

/-- Witness for C4: a paid-in-full row yields a `'final'` event; the same row
with `total_amount_received = 0` yields none. -/
theorem get_paid_commissions_for_ledger_witness :
    (∃ e, finalEventOf
        { id := "p1", client_name := "Acme", status := "completed",
          total_value := some 1000, estimated_value := none,
          deposit_amount := some 300, total_amount_received := some 1000,
          deposit_received_date := none,
          final_payment_date := some ⟨2025, 10, 12⟩,
          commission_rate := some 10, commission_notes := none } = some e
      ∧ e.payment_type = "final")
    ∧ finalEventOf
        { id := "p1", client_name := "Acme", status := "completed",
          total_value := some 1000, estimated_value := none,
          deposit_amount := none, total_amount_received := some 0,
          deposit_received_date := none,
          final_payment_date := some ⟨2025, 10, 12⟩,
          commission_rate := some 10, commission_notes := none } = none :=
  ⟨(get_paid_commissions_for_ledger_correct.2.1 _).mpr
      ⟨by decide, by norm_num [coalesceQ], by norm_num [coalesceQ]⟩,
   get_paid_commissions_for_ledger_correct.2.2.1 _ (by decide) rfl⟩

/-! ## Design-request email status side effect
(src/views/project_detail.py:2598)

```python
current_status = (project.get("status", "") if project else "").lower()
if current_status in ["migrated", "lead", "new", "pending"]:
    update_project_status(project_id, "Design")
    ...
else:
    add_project_history(...)   # no status change
```
`design_email_status_after s` returns the resulting status together with
whether `update_project_status(_, "Design")` fired. -/

def design_email_early_statuses : List String := ["migrated", "lead", "new", "pending"]

def design_email_status_after (current_status : String) : String × Bool :=
  if pyLower current_status ∈ design_email_early_statuses then ("Design", true)
  else (current_status, false)

/-- The claim C5 as stated: the status moves to `Design` exactly from the
early states, *and* sending the design email from `Block A` yields `Design`. -/
def designEmailClaimC5 : Prop :=
  (∀ s, (design_email_status_after s).2 = true ↔ pyLower s ∈ design_email_early_statuses)
  ∧ (design_email_status_after "Block A").1 = "Design"

/-- **C5** (counterexample).  `"block a"` is not in the guard list
`["migrated", "lead", "new", "pending"]`, so a successful design email sent
while the status is `Block A` leaves the status `Block A` — it does not become
`Design` as the claim's end-to-end scenario requires. -/
theorem design_email_claim_refuted : ¬ designEmailClaimC5 := by
  intro h
  exact absurd h.2 (by decide)

/-- **C5** (amended).  After a successfully sent design-request email the
status is updated to `Design` if and only if the current status (lowercased)
is one of `migrated`, `lead`, `new`, `pending`; any other status — including
`Block A` — is left unchanged (no regression, but also no `Block A → Design`
transition). -/
theorem design_email_status_after_correct :
    (∀ s, (design_email_status_after s).2 = true ↔
        pyLower s ∈ design_email_early_statuses)
    ∧ (∀ s, pyLower s ∈ design_email_early_statuses →
        design_email_status_after s = ("Design", true))
    ∧ (∀ s, pyLower s ∉ design_email_early_statuses →
        design_email_status_after s = (s, false))
    ∧ design_email_status_after "Block A" = ("Block A", false) := by
  refine ⟨fun s => ?_, fun s h => ?_, fun s h => ?_, by decide⟩
  · unfold design_email_status_after
    by_cases h : pyLower s ∈ design_email_early_statuses <;> simp [h]
  · simp [design_email_status_after, h]
  · simp [design_email_status_after, h]

/-- Witness for C5's amended theorem: a `new` project advances to `Design`, a
`Quoting` project stays `Quoting`. -/
theorem design_email_status_after_witness :
    design_email_status_after "New" = ("Design", true) ∧
    design_email_status_after "Quoting" = ("Quoting", false) :=
  ⟨design_email_status_after_correct.2.1 "New" (by decide),
   design_email_status_after_correct.2.2.1 "Quoting" (by decide)⟩

/-! ## "Mark won" / "mark lost" availability
(src/views/project_detail.py:4199 and :400)

`render_project_decision` (the only place with a "Project Won" button):
```python
status_lower = (status or "").lower().replace(" ", "_")
if status_lower in ['closed_-_won', 'closed_-_lost', 'completed', 'archived', 'new']:
    return
is_deposit_received = deposit_received_date is not None
production_statuses = ['active_production', 'in_production', 'production',
                       'ready_for_install', 'installed', 'confirmed']
is_in_production = status_lower in production_statuses
if not is_deposit_received and not is_in_production:
    return
```
`render_project_identity_header` (the global escape hatch with the
"Project Lost" button that opens the mark-lost dialog):
```python
show_lost_button = status_lower not in ['closed_-_won', 'closed_-_lost', 'completed', 'archived']
``` -/

def normalize_status (s : String) : String := pyReplaceSpace (pyLower s)

def decision_hidden_statuses : List String :=
  ["closed_-_won", "closed_-_lost", "completed", "archived", "new"]

def production_statuses : List String :=
  ["active_production", "in_production", "production",
   "ready_for_install", "installed", "confirmed"]

def render_project_decision_visible (status : String)
    (deposit_received_date : Option CDate) : Bool :=
  if normalize_status status ∈ decision_hidden_statuses then false
  else if deposit_received_date = none
      ∧ normalize_status status ∉ production_statuses then false
  else true

def lost_hatch_hidden_statuses : List String :=
  ["closed_-_won", "closed_-_lost", "completed", "archived"]

def show_lost_button (status : String) : Bool :=
  decide (normalize_status status ∉ lost_hatch_hidden_statuses)

/-- The claim C6 as stated: both the won and the lost action are available
exactly outside {Closed - Won, Closed - Lost, Completed, Archived, New}. -/
def wonLostClaimC6 : Prop :=
  ∀ (status : String) (d : Option CDate),
    (render_project_decision_visible status d = true ↔
      normalize_status status ∉ decision_hidden_statuses)
    ∧ (show_lost_button status = true ↔
      normalize_status status ∉ decision_hidden_statuses)

/-- **C6** (counterexample).  The "Project Lost" escape hatch is shown for
every status outside {Closed - Won, Closed - Lost, Completed, Archived} —
including `New` — so "mark lost" CAN fire from `New`; and the won/lost
decision section also requires a received deposit or a production status, so
it is NOT available from e.g. `Design` with no deposit on record. -/
theorem won_lost_claim_refuted : ¬ wonLostClaimC6 := by
  intro h
  exact absurd ((h "New" none).2.mp (by decide)) (by decide)

/-- **C6** (amended).  The won/lost decision section renders iff the
normalized status is outside {closed_-_won, closed_-_lost, completed,
archived, new} AND a deposit has been received or the status is a production
status; the "Project Lost" escape hatch is shown iff the normalized status is
outside {closed_-_won, closed_-_lost, completed, archived} — in particular it
is available from `New`. -/
theorem won_lost_availability_correct :
    ∀ (status : String) (d : Option CDate),
      (render_project_decision_visible status d = true ↔
        (normalize_status status ∉ decision_hidden_statuses
          ∧ (d ≠ none ∨ normalize_status status ∈ production_statuses)))
      ∧ (show_lost_button status = true ↔
        normalize_status status ∉ lost_hatch_hidden_statuses) := by
  intro s d
  constructor
  · unfold render_project_decision_visible
    split_ifs with h1 h2
    · simp [h1]
    · simp only [Bool.false_eq_true, false_iff]
      rintro ⟨-, h⟩
      exact h.elim (fun hd => hd h2.1) h2.2
    · simp only [true_iff]
      rcases not_and_or.mp h2 with hd | hp
      · exact ⟨h1, Or.inl hd⟩
      · exact ⟨h1, Or.inr (not_not.mp hp)⟩
  · unfold show_lost_button
    exact decide_eq_true_iff

/-! ## Pay periods and report-period selection (src/views/ledger.py)

```python
def get_pay_period_info(payment_date):
    day = payment_date.day
    if day <= 15: return 1, ...
    else: return 2, ...
```
`get_report_period_info` (ledger.py:46) picks the reportable
`(year, month, period, start_day, end_day)`; on the 1st the previous month is
computed as `today.replace(day=1) - timedelta(days=1)`, which for a valid
civil date is the last day of the previous month. -/

def get_pay_period (day : Nat) : Nat := if day ≤ 15 then 1 else 2

structure ReportPeriod where
  year : Nat
  month : Nat
  period : Nat
  start_day : Nat
  end_day : Nat
deriving DecidableEq, Repr

/-- `today.replace(day=1) - timedelta(days=1)`: the last day of the month
before `today`'s month. -/
def prev_month_last_day (today : CDate) : CDate :=
  if today.month = 1 then ⟨today.year - 1, 12, 31⟩
  else ⟨today.year, today.month - 1, daysInMonth today.year (today.month - 1)⟩

def get_report_period_info (today : CDate) : ReportPeriod :=
  if today.day = 16 then ⟨today.year, today.month, 1, 1, 15⟩
  else if today.day = 1 then
    ⟨(prev_month_last_day today).year, (prev_month_last_day today).month, 2, 16, 31⟩
  else if today.day ≤ 15 then ⟨today.year, today.month, 1, 1, 15⟩
  else ⟨today.year, today.month, 2, 16, 31⟩

/-- `get_report_period_commissions` (ledger.py:126): keep the payments whose
date matches the report period's year and month and lies within
`[start_day, end_day]`. -/
def get_report_period_commissions (today : CDate)
    (commissions : List PaymentEvent) : List PaymentEvent :=
  commissions.filter (fun c =>
    match c.payment_date with
    | some d =>
        decide (d.year = (get_report_period_info today).year
          ∧ d.month = (get_report_period_info today).month
          ∧ (get_report_period_info today).start_day ≤ d.day
          ∧ d.day ≤ (get_report_period_info today).end_day)
    | none => false)

theorem daysInMonth_le_31 (y m : Nat) : daysInMonth y m ≤ 31 := by
  unfold daysInMonth
  split_ifs <;> omega

theorem report_period_shape (today : CDate) :
    (get_report_period_info today).period = 1
        ∧ (get_report_period_info today).start_day = 1
        ∧ (get_report_period_info today).end_day = 15
    ∨ (get_report_period_info today).period = 2
        ∧ (get_report_period_info today).start_day = 16
        ∧ (get_report_period_info today).end_day = 31 := by
  unfold get_report_period_info
  split_ifs <;> simp

/-- **C7**: on day 16 the report period is Period 1 of the current month
(days 1-15); on day 1 it is Period 2 of the previous month (day 16 up to that
month's last day, filtered with end bound 31, which no valid day of the month
exceeds); on any other day it is the in-progress period of the current month
(Period 1 iff day ≤ 15); and `get_report_period_commissions` selects exactly
the payments whose valid date has that (year, month, pay period). -/
theorem get_report_period_info_correct :
    ∀ today : CDate, today.Valid →
      (today.day = 16 →
        get_report_period_info today = ⟨today.year, today.month, 1, 1, 15⟩)
      ∧ (today.day = 1 →
        get_report_period_info today =
            ⟨(prev_month_last_day today).year, (prev_month_last_day today).month,
              2, 16, 31⟩
        ∧ (prev_month_last_day today).day =
            daysInMonth (prev_month_last_day today).year
              (prev_month_last_day today).month)
      ∧ (today.day ≠ 16 → today.day ≠ 1 →
        get_report_period_info today =
          ⟨today.year, today.month, get_pay_period today.day,
            if today.day ≤ 15 then 1 else 16, if today.day ≤ 15 then 15 else 31⟩)
      ∧ (∀ commissions : List PaymentEvent,
          (∀ c ∈ commissions, ∀ d, c.payment_date = some d → d.Valid) →
          ∀ c, c ∈ get_report_period_commissions today commissions ↔
            c ∈ commissions ∧ ∃ d, c.payment_date = some d
              ∧ d.year = (get_report_period_info today).year
              ∧ d.month = (get_report_period_info today).month
              ∧ get_pay_period d.day = (get_report_period_info today).period) := by
  intro today _hv
  refine ⟨fun h16 => ?_, fun h1 => ?_, fun h16 h1 => ?_, fun commissions hval c => ?_⟩
  · unfold get_report_period_info
    rw [if_pos h16]
  · constructor
    · unfold get_report_period_info
      rw [if_neg (by omega), if_pos h1]
    · unfold prev_month_last_day
      split_ifs with h
      · simp [daysInMonth]
      · simp
  · unfold get_report_period_info
    rw [if_neg h16, if_neg h1]
    unfold get_pay_period
    split_ifs <;> simp
  · unfold get_report_period_commissions
    rw [List.mem_filter]
    refine and_congr_right fun hc => ?_
    cases hd : c.payment_date with
    | none => simp
    | some d =>
      have hdv : d.Valid := hval c hc d hd
      have hd31 : d.day ≤ 31 :=
        le_trans hdv.2.2.2.2 (daysInMonth_le_31 d.year d.month)
      have hd1 : 1 ≤ d.day := hdv.2.2.2.1
      simp only [decide_eq_true_eq, Option.some.injEq]
      constructor
      · rintro ⟨hy, hm, hlo, hhi⟩
        refine ⟨d, rfl, hy, hm, ?_⟩
        rcases report_period_shape today with ⟨hp, hs, he⟩ | ⟨hp, hs, he⟩ <;>
          rw [hs] at hlo <;> rw [he] at hhi <;> rw [hp] <;>
          unfold get_pay_period <;> split_ifs <;> omega
      · rintro ⟨d', hd', hy, hm, hp⟩
        subst hd'
        refine ⟨hy, hm, ?_⟩
        rcases report_period_shape today with ⟨hpp, hs, he⟩ | ⟨hpp, hs, he⟩ <;>
          rw [hpp] at hp <;> rw [hs, he] <;>
          unfold get_pay_period at hp <;> split_ifs at hp <;> omega

/-- Witness for C7: on 2025-10-16 the report period is Period 1 of October
2025; on 2025-03-01 it is Period 2 of February 2025. -/
theorem get_report_period_info_witness :
    get_report_period_info ⟨2025, 10, 16⟩ = ⟨2025, 10, 1, 1, 15⟩ ∧
    get_report_period_info ⟨2025, 3, 1⟩ = ⟨2025, 2, 2, 16, 31⟩ :=
  ⟨(get_report_period_info_correct ⟨2025, 10, 16⟩ (by decide)).1 rfl,
   ((get_report_period_info_correct ⟨2025, 3, 1⟩ (by decide)).2.1 rfl).1⟩

/-! ## `group_commissions_by_period` (src/views/ledger.py:90)

```python
for comm in commissions:
    payment_date = comm.get("payment_date")
    if not payment_date: continue
    ...
    key = (year, month, period_num)
    grouped.setdefault(key, ...)["commissions"].append(comm)
sorted_keys = sorted(grouped.keys(), reverse=True)
return [(key, grouped[key]) for key in sorted_keys]
```
Keys are `(year, month, period)` triples compared lexicographically and
listed newest first; each group lists, in input order, the events whose
payment date has that key. -/

def periodKeyOf (d : CDate) : Nat × Nat × Nat := (d.year, d.month, get_pay_period d.day)

/-- `a` sorts no later than `b` under Python's `sorted(..., reverse=True)`:
`b ≤ a` in the lexicographic order on `(year, month, period)`. -/
def keyDescOrder (a b : Nat × Nat × Nat) : Prop :=
  b.1 < a.1 ∨ (b.1 = a.1 ∧ (b.2.1 < a.2.1 ∨ (b.2.1 = a.2.1 ∧ b.2.2 ≤ a.2.2)))

instance : DecidableRel keyDescOrder := fun a b => by
  unfold keyDescOrder; infer_instance

instance : IsTotal (Nat × Nat × Nat) keyDescOrder :=
  ⟨by intro a b; unfold keyDescOrder; omega⟩

instance : IsTrans (Nat × Nat × Nat) keyDescOrder :=
  ⟨by intro a b c; unfold keyDescOrder; omega⟩

def group_commissions_by_period (commissions : List PaymentEvent) :
    List ((Nat × Nat × Nat) × List PaymentEvent) :=
  let keyed := commissions.filterMap
    (fun c => c.payment_date.map (fun d => (periodKeyOf d, c)))
  let keys := (keyed.map Prod.fst).dedup
  (List.insertionSort keyDescOrder keys).map
    (fun k => (k, (keyed.filter (fun kc => decide (kc.1 = k))).map Prod.snd))

theorem group_keys_eq (commissions : List PaymentEvent) :
    (group_commissions_by_period commissions).map Prod.fst =
      List.insertionSort keyDescOrder
        (((commissions.filterMap
            (fun c => c.payment_date.map (fun d => (periodKeyOf d, c)))).map
          Prod.fst).dedup) := by
  unfold group_commissions_by_period
  rw [List.map_map]
  exact List.map_id _

/-- **C8**: pay-period bucketing sends day ≤ 15 to Period 1 and day ≥ 16 to
Period 2 (a pure function of the calendar day); every event with a payment
date lands in the group keyed by `(year, month, pay_period)` of that date;
groups contain only events with that key; and the groups come back sorted
newest-first by key. -/
theorem group_commissions_by_period_correct :
    (∀ day, 1 ≤ day →
      (get_pay_period day = 1 ↔ day ≤ 15) ∧ (get_pay_period day = 2 ↔ 16 ≤ day))
    ∧ (∀ (commissions : List PaymentEvent), ∀ c ∈ commissions, ∀ d,
        c.payment_date = some d →
        ∃ g ∈ group_commissions_by_period commissions,
          g.1 = (d.year, d.month, get_pay_period d.day) ∧ c ∈ g.2)
    ∧ (∀ (commissions : List PaymentEvent),
        ∀ g ∈ group_commissions_by_period commissions, ∀ c ∈ g.2,
        ∃ d, c.payment_date = some d
          ∧ g.1 = (d.year, d.month, get_pay_period d.day))
    ∧ (∀ commissions : List PaymentEvent,
        List.Sorted keyDescOrder
          ((group_commissions_by_period commissions).map Prod.fst)) := by
  refine ⟨fun day h1 => ?_, fun commissions c hc d hd => ?_,
    fun commissions g hg c hcg => ?_, fun commissions => ?_⟩
  · unfold get_pay_period
    by_cases h : day ≤ 15 <;> simp [h] <;> omega
  · have hkeyed : (periodKeyOf d, c) ∈ commissions.filterMap
        (fun c => c.payment_date.map (fun d => (periodKeyOf d, c))) := by
      rw [List.mem_filterMap]
      exact ⟨c, hc, by rw [hd]; rfl⟩
    have hkey : periodKeyOf d ∈ (List.insertionSort keyDescOrder
        (((commissions.filterMap
            (fun c => c.payment_date.map (fun d => (periodKeyOf d, c)))).map
          Prod.fst).dedup)) := by
      rw [(List.perm_insertionSort keyDescOrder _).mem_iff, List.mem_dedup,
        List.mem_map]
      exact ⟨(periodKeyOf d, c), hkeyed, rfl⟩
    refine ⟨(periodKeyOf d,
        ((commissions.filterMap
            (fun c => c.payment_date.map (fun d => (periodKeyOf d, c)))).filter
          (fun kc => decide (kc.1 = periodKeyOf d))).map Prod.snd), ?_, rfl, ?_⟩
    · unfold group_commissions_by_period
      rw [List.mem_map]
      exact ⟨periodKeyOf d, hkey, rfl⟩
    · rw [List.mem_map]
      exact ⟨(periodKeyOf d, c), List.mem_filter.mpr ⟨hkeyed, by simp⟩, rfl⟩
  · unfold group_commissions_by_period at hg
    rw [List.mem_map] at hg
    obtain ⟨k, _, hgk⟩ := hg
    subst hgk
    rw [List.mem_map] at hcg
    obtain ⟨kc, hkcmem, hkc2⟩ := hcg
    have hkc1 := (List.mem_filter.mp hkcmem).2
    have hkcK := (List.mem_filter.mp hkcmem).1
    rw [List.mem_filterMap] at hkcK
    obtain ⟨a, _, ha⟩ := hkcK
    cases hpd : a.payment_date with
    | none => rw [hpd] at ha; cases ha
    | some d =>
      rw [hpd] at ha
      injection ha with ha
      have hak : kc.1 = periodKeyOf d := by rw [← ha]
      have hac : kc.2 = a := by rw [← ha]
      refine ⟨d, ?_, ?_⟩
      · rw [← hkc2, hac, hpd]
      · simp only [decide_eq_true_eq] at hkc1
        rw [← hkc1, hak]; rfl
  · rw [group_keys_eq]
    exact List.sorted_insertionSort keyDescOrder _

/-- Witness for C8: a single payment dated 2025-10-12 (day ≤ 15) lands in the
group keyed (2025, 10, 1). -/
theorem group_commissions_by_period_witness :
    ∃ g ∈ group_commissions_by_period
      [{ id := "p1", client_name := "Acme", project_value := 1000,
         payment_amount := 300, commission_rate := 10,
         payment_date := some ⟨2025, 10, 12⟩, commission_notes := none,
         payment_type := "deposit" }],
      g.1 = (2025, 10, 1) ∧
      { id := "p1", client_name := "Acme", project_value := (1000 : ℚ),
        payment_amount := 300, commission_rate := 10,
        payment_date := some ⟨2025, 10, 12⟩, commission_notes := none,
        payment_type := "deposit" } ∈ g.2 :=
  group_commissions_by_period_correct.2.1 _ _ (List.mem_singleton.mpr rfl)
    ⟨2025, 10, 12⟩ rfl

/-! ## Alert engine and snooze (src/services/database_manager.py:1971, :2044)

Timestamps are modelled as whole minutes since 0001-01-01 00:00 Mountain
time, so that Python's `datetime` comparison is integer comparison,
`timedelta(hours=h)` is `h * 60` minutes, and `.date()` is division by 1440
(giving the date ordinal `calculate_business_days` walks over).

`snooze_project_alert` runs a single
`UPDATE projects SET snooze_until = :snooze_until` — no other column.

`get_system_alerts` filters in SQL
(`is_active_v3 = TRUE AND status IN ('Design','Quoting','Awaiting Deposit')
AND status_updated_at IS NOT NULL AND (snooze_until IS NULL OR
snooze_until < NOW())`; the `ORDER BY status_updated_at` only reorders rows
and is not modelled), then emits per row at most one nudge from the
lowercase/underscore status and the elapsed business days.  The display
message and icon strings are presentation only and not modelled. -/

structure ProjectRow where
  id : String
  client_name : String
  status : String
  status_updated_at : Option Int
  snooze_until : Option Int
  action_due_date : Option CDate
  action_note : Option String
  pending_action : Bool
  estimated_value : Option ℚ
  commission_rate : Option ℚ
  is_active_v3 : Bool
  is_parked : Bool
  notes : Option String
deriving DecidableEq, Repr

/-- `snooze_until = now_mountain() + timedelta(hours=hours)`; the Python
default is `hours = 24`. -/
def snooze_project_alert (now hours : Int) (p : ProjectRow) : ProjectRow :=
  { p with snooze_until := some (now + hours * 60) }

structure SystemAlert where
  id : String
  client_name : String
  status : String
  alert_type : String
  business_days : Nat
deriving DecidableEq, Repr

/-- The civil-date ordinal of the day containing minute `t` (`.date()`). -/
def minuteDateOrdinal (t : Int) : Nat := (t / 1440).toNat

/-- The elapsed business days `calculate_business_days(status_updated, now)`
computes after converting both datetimes to dates. -/
def business_days_between_times (su now : Int) : Nat :=
  countWeekdaysFrom (minuteDateOrdinal su) (minuteDateOrdinal now - minuteDateOrdinal su)

def alert_sql_filter (now : Int) (p : ProjectRow) : Bool :=
  p.is_active_v3
    && decide (p.status ∈ ["Design", "Quoting", "Awaiting Deposit"])
    && p.status_updated_at.isSome
    && (match p.snooze_until with
        | none => true
        | some t => decide (t < now))

def alert_for_row (now : Int) (p : ProjectRow) : Option SystemAlert :=
  match p.status_updated_at with
  | none => none
  | some su =>
    if normalize_status p.status = "design"
        ∧ 3 < business_days_between_times su now then
      some ⟨p.id, p.client_name, p.status, "matt_nudge",
        business_days_between_times su now⟩
    else if normalize_status p.status = "quoting"
        ∧ 1 < business_days_between_times su now then
      some ⟨p.id, p.client_name, p.status, "bruno_nudge",
        business_days_between_times su now⟩
    else if normalize_status p.status = "awaiting_deposit"
        ∧ 3 < business_days_between_times su now then
      some ⟨p.id, p.client_name, p.status, "customer_nudge",
        business_days_between_times su now⟩
    else none

def get_system_alerts (now : Int) (rows : List ProjectRow) : List SystemAlert :=
  (rows.filter (alert_sql_filter now)).filterMap (alert_for_row now)

/-- Does the row have a snooze set to a strictly future time? -/
def snoozed_in_future (now : Int) (p : ProjectRow) : Bool :=
  match p.snooze_until with
  | none => false
  | some t => decide (now < t)

/-- **C9**: snoozing sets only `snooze_until` (to now + hours·60 minutes, the
caller's default being 24 hours) and leaves every other project column —
status, status_updated_at, action_due_date and the rest — unchanged; and a
row whose `snooze_until` is set and in the future fails the alert query's
snooze filter, so the alert engine emits no nudge for it: dropping all such
rows does not change the emitted alerts. -/
theorem snooze_project_alert_correct :
    (∀ (p : ProjectRow) (now hours : Int),
      (snooze_project_alert now hours p).snooze_until = some (now + hours * 60)
      ∧ (snooze_project_alert now hours p).id = p.id
      ∧ (snooze_project_alert now hours p).client_name = p.client_name
      ∧ (snooze_project_alert now hours p).status = p.status
      ∧ (snooze_project_alert now hours p).status_updated_at = p.status_updated_at
      ∧ (snooze_project_alert now hours p).action_due_date = p.action_due_date
      ∧ (snooze_project_alert now hours p).action_note = p.action_note
      ∧ (snooze_project_alert now hours p).pending_action = p.pending_action
      ∧ (snooze_project_alert now hours p).estimated_value = p.estimated_value
      ∧ (snooze_project_alert now hours p).commission_rate = p.commission_rate
      ∧ (snooze_project_alert now hours p).is_active_v3 = p.is_active_v3
      ∧ (snooze_project_alert now hours p).is_parked = p.is_parked
      ∧ (snooze_project_alert now hours p).notes = p.notes)
    ∧ (∀ (now : Int) (p : ProjectRow) (t : Int),
        p.snooze_until = some t → now < t → alert_sql_filter now p = false)
    ∧ (∀ (now : Int) (rows : List ProjectRow),
        get_system_alerts now rows =
          get_system_alerts now (rows.filter (fun p => !snoozed_in_future now p))) := by
  refine ⟨fun p now hours =>
      ⟨rfl, rfl, rfl, rfl, rfl, rfl, rfl, rfl, rfl, rfl, rfl, rfl, rfl⟩,
    fun now p t ht hfut => ?_, fun now rows => ?_⟩
  · unfold alert_sql_filter
    rw [ht]
    have : ¬ t < now := by omega
    simp [this]
  · unfold get_system_alerts
    rw [List.filter_filter]
    congr 1
    apply List.filter_congr
    intro p _
    cases hb : alert_sql_filter now p with
    | false => simp
    | true =>
      have : snoozed_in_future now p = false := by
        unfold alert_sql_filter at hb
        unfold snoozed_in_future
        cases hs : p.snooze_until with
        | none => rfl
        | some t =>
          rw [hs] at hb
          simp only [Bool.and_eq_true, decide_eq_true_eq] at hb
          simp only [decide_eq_false_iff_not]
          omega
      simp [this]

/-- Witness for C9: an active, long-stale `Design` row snoozed until minute
1000060 fails the alert query's filter at minute 1000000. -/
theorem snooze_project_alert_witness :
    alert_sql_filter 1000000
      { id := "p1", client_name := "Acme", status := "Design",
        status_updated_at := some 0, snooze_until := some 1000060,
        action_due_date := none, action_note := none, pending_action := false,
        estimated_value := none, commission_rate := none,
        is_active_v3 := true, is_parked := false, notes := none } = false :=
  snooze_project_alert_correct.2.1 1000000 _ 1000060 rfl (by omega)

/-! ## Webhook intake
(`create_lead_from_zapier`, src/services/database_manager.py:837;
`create_lead`, :768; `LeadReceiverHandler.do_POST`, src/api/lead_receiver.py:13)

Python's `data.get(k, "")` yields `""` for an absent key and the stored value
(possibly `None`) otherwise; the `or` chains then replace every falsy value
with the next alternative.  Both an absent key and a JSON `null`/`""` value
are falsy, so both are modelled as `none`/`""` collapsing to `""`.  The
database is modelled as the list of project rows; `create_lead`'s INSERT
appends one row (its two legacy `project_history` rows hold contact strings,
not projects, and are not modelled).  The HTTP handler wraps the result as
`{status: success|error}` with code 200/400. -/

def pyGetStr (v : Option String) : String := v.getD ""

/-- Python `a or b` on strings: `""` is falsy. -/
def pyOrStr (a b : String) : String := if a = "" then b else a

structure ZapierPayload where
  name : Option String
  client_name : Option String
  phone : Option String
  phone_number : Option String
  email : Option String
  notes : Option String
  message : Option String
  details : Option String
deriving DecidableEq, Repr

/-- `data.get("name", "") or data.get("client_name", "") or ""`. -/
def zapName (d : ZapierPayload) : String :=
  pyOrStr (pyOrStr (pyGetStr d.name) (pyGetStr d.client_name)) ""

/-- `data.get("phone", "") or data.get("phone_number", "") or ""`. -/
def zapPhone (d : ZapierPayload) : String :=
  pyOrStr (pyOrStr (pyGetStr d.phone) (pyGetStr d.phone_number)) ""

/-- `data.get("email", "") or ""`. -/
def zapEmail (d : ZapierPayload) : String :=
  pyOrStr (pyGetStr d.email) ""

/-- `data.get("notes","") or data.get("message","") or data.get("details","") or ""`. -/
def zapNotes (d : ZapierPayload) : String :=
  pyOrStr (pyOrStr (pyOrStr (pyGetStr d.notes) (pyGetStr d.message)) (pyGetStr d.details)) ""

structure NewProject where
  id : String
  client_name : String
  status : String
  notes : String
  source : String
  primary_contact_name : Option String
  primary_contact_phone : Option String
  primary_contact_email : Option String
  site_address : Option String
  is_active_v3 : Bool
deriving DecidableEq, Repr

/-- `create_lead`: one INSERT of a project row with `status = 'New'` and
`is_active_v3 = TRUE`; `name or "Unknown"` for the client name and
`x or None` for the contact columns. -/
def create_lead (pid name phone email notes source site_address : String)
    (db : List NewProject) : Bool × List NewProject :=
  (true, db ++ [{
    id := pid,
    client_name := if name = "" then "Unknown" else name,
    status := "New",
    notes := notes,
    source := source,
    primary_contact_name := if name = "" then none else some name,
    primary_contact_phone := if phone = "" then none else some phone,
    primary_contact_email := if email = "" then none else some email,
    site_address := if site_address = "" then none else some site_address,
    is_active_v3 := true }])

def create_lead_from_zapier (pid : String) (d : ZapierPayload)
    (db : List NewProject) : (Bool × String) × List NewProject :=
  if zapName d = "" ∧ zapPhone d = "" ∧ zapEmail d = "" then
    ((false, "No lead data provided"), db)
  else
    let r := create_lead pid (zapName d) (zapPhone d) (zapEmail d) (zapNotes d)
      "zapier" "" db
    if r.1 then
      ((true, "Lead created: " ++ pyOrStr (pyOrStr (zapName d) (zapEmail d)) (zapPhone d)),
        r.2)
    else ((false, "Failed to create lead"), db)

structure HttpResponse where
  code : Nat
  status : String
  message : String
deriving DecidableEq, Repr

def lead_receiver_post (pid : String) (d : ZapierPayload)
    (db : List NewProject) : HttpResponse × List NewProject :=
  let r := create_lead_from_zapier pid d db
  if r.1.1 then (⟨200, "success", r.1.2⟩, r.2)
  else (⟨400, "error", r.1.2⟩, r.2)

/-- **C10**: the intake POST answers `{status: 'error'}` with HTTP 400 and
creates no project exactly when the resolved name (with alias `client_name`),
phone (with alias `phone_number`) and email are all empty — in particular a
payload carrying only notes is rejected — and any payload with at least one
of them non-empty creates exactly one new project row, with status `New` and
`is_active_v3 = TRUE`, answering `{status: 'success'}` with HTTP 200. -/
theorem lead_receiver_post_correct :
    ∀ (pid : String) (d : ZapierPayload) (db : List NewProject),
      (zapName d = "" ∧ zapPhone d = "" ∧ zapEmail d = "" →
        lead_receiver_post pid d db = (⟨400, "error", "No lead data provided"⟩, db))
      ∧ (¬ (zapName d = "" ∧ zapPhone d = "" ∧ zapEmail d = "") →
        (lead_receiver_post pid d db).1.code = 200
        ∧ (lead_receiver_post pid d db).1.status = "success"
        ∧ ∃ p : NewProject, (lead_receiver_post pid d db).2 = db ++ [p]
            ∧ p.status = "New" ∧ p.is_active_v3 = true)
      ∧ ((lead_receiver_post pid d db).1.status = "error" ↔
          zapName d = "" ∧ zapPhone d = "" ∧ zapEmail d = "")
      ∧ (d.name = none → d.client_name = none → d.phone = none →
          d.phone_number = none → d.email = none →
        lead_receiver_post pid d db = (⟨400, "error", "No lead data provided"⟩, db)) := by
  intro pid d db
  have hempty : ∀ he : zapName d = "" ∧ zapPhone d = "" ∧ zapEmail d = "",
      lead_receiver_post pid d db = (⟨400, "error", "No lead data provided"⟩, db) := by
    intro he
    unfold lead_receiver_post create_lead_from_zapier
    rw [if_pos he]
    rfl
  have hsuccess : ∀ _hne : ¬ (zapName d = "" ∧ zapPhone d = "" ∧ zapEmail d = ""),
      lead_receiver_post pid d db =
        (⟨200, "success",
            "Lead created: " ++ pyOrStr (pyOrStr (zapName d) (zapEmail d)) (zapPhone d)⟩,
          (create_lead pid (zapName d) (zapPhone d) (zapEmail d) (zapNotes d)
            "zapier" "" db).2) := by
    intro hne
    unfold lead_receiver_post create_lead_from_zapier
    rw [if_neg hne]
    rfl
  refine ⟨hempty, fun hne => ?_, ?_, fun h1 h2 h3 h4 h5 => ?_⟩
  · rw [hsuccess hne]
    exact ⟨rfl, rfl, _, rfl, rfl, rfl⟩
  · by_cases he : zapName d = "" ∧ zapPhone d = "" ∧ zapEmail d = ""
    · rw [hempty he]
      exact iff_of_true rfl he
    · rw [hsuccess he]
      exact iff_of_false (by simp) he
  · apply hempty
    refine ⟨?_, ?_, ?_⟩ <;>
      simp [zapName, zapPhone, zapEmail, h1, h2, h3, h4, h5, pyGetStr, pyOrStr]

/-- Witness for C10: a notes-only payload is rejected with 400/error and no
project; the claim's end-to-end payload `{name: "Acme Co", phone: "555-1234"}`
is accepted with HTTP 200. -/
theorem lead_receiver_post_witness :
    lead_receiver_post "id1"
        ⟨none, none, none, none, none, some "call back later", none, none⟩ []
      = (⟨400, "error", "No lead data provided"⟩, [])
    ∧ (lead_receiver_post "id1"
        ⟨some "Acme Co", none, some "555-1234", none, none, none, none, none⟩ []).1.code
      = 200 :=
  ⟨(lead_receiver_post_correct "id1" _ []).2.2.2 rfl rfl rfl rfl rfl,
   ((lead_receiver_post_correct "id1" _ []).2.1 (by decide)).1⟩

/-! ## Production-lock gatekeeper and the C1 invariant
(src/views/project_detail.py:3688, :3721, :3762-3786;
src/services/database_manager.py:471, :502, :526, :768)

The UI actions that touch the spec references and the production lock:
- Block A "Lock Golden Proof": fires only `if selected_file and not
  master_spec_file_id`, then `set_master_spec(project_id, file_id, file_name, ...)`.
- Block D signed-spec upload: the uploader is rendered only while
  `signed_spec_file_name` is falsy; saving writes
  `save_path = "./project_files/" + project_id + "_signed_" + safe_name` and
  calls `set_signed_spec(project_id, save_path, upload.name)`.
- Block D "Confirm Deposit & Lock Production": the button is disabled unless
  `bool(signed_spec_file_id) and bool(master_spec_file_id)` (no condition on
  the deposit amount); when it fires it runs `mark_deposit_received` followed
  by `lock_production`, the only caller of `lock_production` in the tree.
- All remaining status mutations (`update_project_status`,
  `update_lead_status`, `mark_project_won/lost`,
  `close_project_with_final_payment`, archive/restore) write the status
  column and never touch the spec references or `production_locked`.

The view normalizes NULL references to `""` (`project.get(...) or ""`), and a
fresh `create_lead` row has no spec references and
`COALESCE(production_locked, FALSE)`. -/

structure ProjectUIState where
  status : String
  master_spec_file_id : String
  master_spec_file_name : String
  signed_spec_file_id : String
  signed_spec_file_name : String
  production_locked : Bool
  deposit_received_date : Option CDate
  deposit_amount : Option ℚ
deriving DecidableEq, Repr

/-- The row `create_lead` inserts: status `New`, no spec references, not
locked, no deposit. -/
def initialProject : ProjectUIState :=
  { status := "New", master_spec_file_id := "", master_spec_file_name := "",
    signed_spec_file_id := "", signed_spec_file_name := "",
    production_locked := false, deposit_received_date := none,
    deposit_amount := none }

/-- One UI action on a project, with its enabling guard. -/
inductive Step : ProjectUIState → ProjectUIState → Prop
  | lockMasterSpec (p : ProjectUIState) (file_id file_name : String)
      (hUnset : p.master_spec_file_id = "") :
      Step p { p with master_spec_file_id := file_id,
                      master_spec_file_name := file_name }
  | saveSignedSpec (p : ProjectUIState) (path_rest upload_name : String)
      (hUnset : p.signed_spec_file_name = "") :
      Step p { p with signed_spec_file_id := "./project_files/" ++ path_rest,
                      signed_spec_file_name := upload_name }
  | confirmDepositLockProduction (p : ProjectUIState) (dep_date : CDate)
      (dep_amt : ℚ)
      (hMaster : p.master_spec_file_id ≠ "")
      (hSigned : p.signed_spec_file_id ≠ "") :
      Step p { p with status := "ACTIVE PRODUCTION",
                      deposit_received_date := some dep_date,
                      deposit_amount := some dep_amt,
                      production_locked := true }
  | updateStatus (p : ProjectUIState) (new_status : String) :
      Step p { p with status := new_status }
  | markWon (p : ProjectUIState) : Step p { p with status := "Closed - Won" }
  | markLost (p : ProjectUIState) : Step p { p with status := "Closed - Lost" }
  | closeProject (p : ProjectUIState) (install : Option CDate) (today : CDate) :
      Step p { p with status := close_project_new_status install today }
  | archiveProject (p : ProjectUIState) : Step p { p with status := "Archived" }
  | restoreProject (p : ProjectUIState) : Step p { p with status := "Block A" }

/-- States reachable from a freshly created project. -/
inductive Reachable : ProjectUIState → Prop
  | start : Reachable initialProject
  | step {p q : ProjectUIState} : Reachable p → Step p q → Reachable q

theorem project_files_path_ne_empty (r : String) :
    "./project_files/" ++ r ≠ "" := by
  intro h
  have h2 := congrArg String.length h
  rw [String.length_append] at h2
  have e1 : ("./project_files/" : String).length = 16 := rfl
  have e2 : ("" : String).length = 0 := rfl
  omega

/-- **C1**: in every reachable project state, `production_locked = true`
implies both the master-spec and the signed-spec reference are non-empty: the
"Confirm Deposit & Lock Production" action is the only one that sets the
lock, it can only fire when both references are truthy (regardless of the
deposit amount entered), and no action ever empties a reference that was
set. -/
theorem production_locked_invariant :
    ∀ p : ProjectUIState, Reachable p → p.production_locked = true →
      p.master_spec_file_id ≠ "" ∧ p.signed_spec_file_id ≠ "" := by
  intro p hreach
  induction hreach with
  | start =>
    intro h
    exact absurd h (by decide)
  | step hr hs ih =>
    cases hs with
    | lockMasterSpec file_id file_name hUnset =>
      intro hlock
      exact absurd hUnset (ih hlock).1
    | saveSignedSpec path_rest upload_name hUnset =>
      intro hlock
      exact ⟨(ih hlock).1, project_files_path_ne_empty path_rest⟩
    | confirmDepositLockProduction dep_date dep_amt hMaster hSigned =>
      intro _
      exact ⟨hMaster, hSigned⟩
    | updateStatus new_status => exact ih
    | markWon => exact ih
    | markLost => exact ih
    | closeProject install today => exact ih
    | archiveProject => exact ih
    | restoreProject => exact ih

/-- Witness for C1: lock a golden proof, save a signed spec, then confirm the
deposit; the resulting locked state carries both references. -/
theorem production_locked_invariant_witness :
    ({ status := "ACTIVE PRODUCTION", master_spec_file_id := "drive123",
       master_spec_file_name := "proof.pdf",
       signed_spec_file_id := "./project_files/" ++ "p1_signed_spec.pdf",
       signed_spec_file_name := "spec.pdf", production_locked := true,
       deposit_received_date := some ⟨2025, 10, 12⟩,
       deposit_amount := some 500 } : ProjectUIState).master_spec_file_id ≠ ""
    ∧ ({ status := "ACTIVE PRODUCTION", master_spec_file_id := "drive123",
          master_spec_file_name := "proof.pdf",
          signed_spec_file_id := "./project_files/" ++ "p1_signed_spec.pdf",
          signed_spec_file_name := "spec.pdf", production_locked := true,
          deposit_received_date := some ⟨2025, 10, 12⟩,
          deposit_amount := some 500 } : ProjectUIState).signed_spec_file_id ≠ "" :=
  production_locked_invariant _
    (Reachable.step
      (Reachable.step
        (Reachable.step Reachable.start
          (Step.lockMasterSpec _ "drive123" "proof.pdf" rfl))
        (Step.saveSignedSpec _ "p1_signed_spec.pdf" "spec.pdf" rfl))
      (Step.confirmDepositLockProduction _ ⟨2025, 10, 12⟩ 500
        (by decide) (by decide)))
    rfl

end Grayco
